import Mathlib

/-!
Verification of the AI news podcast generator (`src/app.py`).

The file shallowly embeds the pure content of the program: the article
extractor `get_article_text`, the news query builder `fetch_news_newsapi`,
the prompt assembly of `generate_podcast_script_gemini`, the guard of
`text_to_speech_gcp`, and the `generate_button` handler.  Network calls,
the Gemini model and the TTS backend are oracles passed in as parameters;
Streamlit warnings and progress messages are not modelled (they carry no
state).  Strings are Lean `String`s; Python `s[:n]` is `strTake s n`
(first `n` characters); Python `x in s` is `containsStr s x`.
-/

/-- Whether the character list `p` occurs contiguously inside `l`. -/
def charsInfix (p : List Char) : List Char → Bool
  | [] => p.isEmpty
  | c :: cs => p.isPrefixOf (c :: cs) || charsInfix p cs

/-- Python's `needle in haystack` substring test on strings. -/
def containsStr (haystack needle : String) : Bool :=
  charsInfix needle.data haystack.data

/-- Python's `s[:n]` character-slice (used for the 4000/1500 caps). -/
def strTake (s : String) (n : Nat) : String :=
  ⟨s.data.take n⟩

/-- Python's `s.strip()`: leading and trailing whitespace removed
(structural, so that witnesses evaluate in the kernel). -/
def strTrim (s : String) : String :=
  ⟨(((s.data.dropWhile Char.isWhitespace).reverse.dropWhile Char.isWhitespace).reverse)⟩

/-- Split a character list at every occurrence of `sep` (Python
`str.split(sep)` for a one-character separator; `"".split(sep) = [""]`). -/
def splitChar (sep : Char) : List Char → List (List Char)
  | [] => [[]]
  | c :: cs =>
    match splitChar sep cs with
    | r :: rs => if c == sep then [] :: r :: rs else (c :: r) :: rs
    | [] => if c == sep then [[], []] else [[c]]

/-- Python `s.split(sep)` for a one-character separator. -/
def strSplitChar (sep : Char) (s : String) : List String :=
  (splitChar sep s.data).map (fun l => ⟨l⟩)

/-- Python truthiness of an optional string (`st.secrets.get` result):
`None` and `""` are falsy. -/
def strOptFalsy : Option String → Bool
  | none => true
  | some s => s == ""

/- ### HTML model (what BeautifulSoup hands to `get_article_text`)

An element carries its tag, its `id` attribute (`""` when absent) and its
class list; documents and child lists are `Forest`s (a mutual inductive so
that all functions below are structural and compute by `decide`). -/

mutual

inductive Html where
  | text (s : String)
  | elem (tag : String) (idAttr : String) (classes : List String) (children : Forest)
  deriving DecidableEq

inductive Forest where
  | nil
  | cons (h : Html) (t : Forest)
  deriving DecidableEq

end

/-- The CSS selector shapes used by `main_content_selectors`. -/
inductive Selector where
  | tagSel (t : String)
  | clsSel (c : String)
  | idSel (i : String)
  deriving DecidableEq

/-- Whether one element node matches a selector (ignoring children). -/
def selMatches (sel : Selector) : Html → Bool
  | .text _ => false
  | .elem tag idAttr classes _ =>
    match sel with
    | .tagSel t => tag == t
    | .clsSel c => classes.contains c
    | .idSel i => idAttr == i

mutual

/-- `soup.select_one(sel)` on a subtree: first matching element in document
(pre-)order, the root element included. -/
def selectOneNode (sel : Selector) : Html → Option Html
  | .text _ => none
  | .elem tag idAttr classes children =>
    if selMatches sel (.elem tag idAttr classes children) then
      some (.elem tag idAttr classes children)
    else selectOneForest sel children

/-- `select_one` over a forest of siblings, in document order. -/
def selectOneForest (sel : Selector) : Forest → Option Html
  | .nil => none
  | .cons h t =>
    match selectOneNode sel h with
    | some e => some e
    | none => selectOneForest sel t

end

mutual

/-- All `<p>` descendants of a node, the node itself included, in document
order (`find_all('p')` collects every match in the subtree). -/
def findPsNode : Html → List Html
  | .text _ => []
  | .elem tag idAttr classes children =>
    (if tag == "p" then [.elem tag idAttr classes children] else [])
      ++ findPsForest children

/-- All `<p>` elements inside a forest. -/
def findPsForest : Forest → List Html
  | .nil => []
  | .cons h t => findPsNode h ++ findPsForest t

end

mutual

/-- `get_text(strip=True)`: every text node of the subtree, each stripped,
concatenated in order. -/
def nodeTextStrip : Html → String
  | .text s => strTrim s
  | .elem _ _ _ children => forestTextStrip children

/-- `get_text(strip=True)` over a forest. -/
def forestTextStrip : Forest → String
  | .nil => ""
  | .cons h t => nodeTextStrip h ++ forestTextStrip t

end

/-- `' '.join([para.get_text(strip=True) for para in paragraphs])`. -/
def joinParas (ps : List Html) : String :=
  String.intercalate " " (ps.map nodeTextStrip)

/-- `main_element.find_all('p')` for a matched container element. -/
def elParas : Html → List Html
  | .text _ => []
  | .elem _ _ _ children => findPsForest children

/-- The fixed selector priority list of `get_article_text` (app.py:178). -/
def main_content_selectors : List Selector :=
  [.tagSel "article", .tagSel "main", .clsSel "main-content", .idSel "main-content",
   .clsSel "story-content", .clsSel "article-body", .idSel "content"]

/-- The `for selector in main_content_selectors` loop (app.py:181-186): the
first selector with a match yields that container's joined paragraph text
and the loop breaks; no later selector is tried. -/
def selectLoop (soup : Forest) : List Selector → String
  | [] => ""
  | sel :: rest =>
    match selectOneForest sel soup with
    | some el => joinParas (elParas el)
    | none => selectLoop soup rest

/-- `get_article_text` (app.py:170-195).  `fetched` is the outcome of
`requests.get` + `BeautifulSoup`: `none` when any exception is raised
(network error, `raise_for_status`, parse error), in which case the code
warns and returns `""`.  Otherwise the selector loop runs, an empty result
falls back to every `<p>` in the document, and the text is capped at 4000
characters. -/
def get_article_text (fetched : Option Forest) : String :=
  match fetched with
  | none => ""
  | some soup =>
    let content_text := selectLoop soup main_content_selectors
    let content_text :=
      if content_text == "" then joinParas (findPsForest soup) else content_text
    strTake content_text 4000

/-- Number of whitespace-separated words, for the spec's word threshold. -/
def wordCount (s : String) : Nat :=
  ((strSplitChar ' ' s).filter (fun w => w ≠ "")).length

/-- Modelled from the spec (section 4.1, not present in the code): the
selector loop as the specification describes it — "within the first
matching container, concatenate the text of all paragraph elements; if the
concatenation is below a minimum word threshold, continue to the next
selector" (threshold 50 words, per section 8). -/
def selectLoopSpec (soup : Forest) : List Selector → String
  | [] => ""
  | sel :: rest =>
    match selectOneForest sel soup with
    | some el =>
      let t := joinParas (elParas el)
      if wordCount t < 50 then selectLoopSpec soup rest else t
    | none => selectLoopSpec soup rest

/-- Modelled from the spec: article extraction with the spec's word-threshold
continuation, falling back to all document paragraphs when no selector
yields sufficient text. -/
def get_article_text_spec (fetched : Option Forest) : String :=
  match fetched with
  | none => ""
  | some soup =>
    let content_text := selectLoopSpec soup main_content_selectors
    let content_text :=
      if content_text == "" then joinParas (findPsForest soup) else content_text
    strTake content_text 4000

/- ### News acquisition (`fetch_news_newsapi`, app.py:125-168) -/

/-- One article as mapped from the NewsAPI response (app.py:156-163) and
enriched by the handler's extraction step (app.py:357). -/
structure NewsItem where
  title : String
  link : String
  snippet : String
  source_name : String
  published_at : String
  full_text_content : Option String
  deriving DecidableEq

/-- The parameters of the HTTP request to the `everything` endpoint
(app.py:143-150).  `fromTimestamp` is the instant formatted into the `from`
field, as seconds since the epoch (`now - timedelta(days=1)`). -/
structure NewsApiRequest where
  q : String
  apiKey : String
  fromTimestamp : Int
  sortBy : String
  language : String
  pageSize : Nat
  deriving DecidableEq

/-- `fetch_news_newsapi` (app.py:125-168).  `newsApiKey` is the secret
(`none`/`""` falsy), `now` the current UTC time in epoch seconds, and
`respond` the oracle for `requests.get` + response parsing + the exception
handlers (on any request error the code leaves `results` as built so far;
that behaviour lives inside the oracle).  The first component is the HTTP
request issued, `none` when the code returns before any request. -/
def fetch_news_newsapi (newsApiKey : Option String) (topics companies : List String)
    (now : Int) (num_articles : Nat) (respond : NewsApiRequest → List NewsItem) :
    Option NewsApiRequest × List NewsItem :=
  if strOptFalsy newsApiKey then (none, [])
  else
    let query_parts : List String :=
      (if topics.isEmpty then []
       else ["(" ++ String.intercalate " OR " topics ++ ")"])
      ++ (if companies.isEmpty then []
          else ["(" ++ String.intercalate " OR " companies ++ ")"])
    if query_parts.isEmpty then (none, [])
    else
      let req : NewsApiRequest :=
        { q := String.intercalate " AND " query_parts,
          apiKey := newsApiKey.getD "",
          fromTimestamp := now - 86400,
          sortBy := "relevancy",
          language := "en",
          pageSize := num_articles }
      (some req, respond req)

/- ### Script composition (`generate_podcast_script_gemini`, app.py:198-255) -/

/-- The outcome of `gemini_model.generate_content` as the code branches on
it: a usable first candidate, an unexpected/empty response, or an
exception. -/
inductive GeminiResult where
  | ok (text : String)
  | badFormat
  | exn
  deriving DecidableEq

/-- The header line appended for the n-th news item (app.py:225). -/
def newsItemHeader (n : Nat) : String :=
  "\n--- News Item " ++ toString n ++ " ---"

/-- The `Snippet:` line, appended only when the snippet is truthy
(app.py:228-229). -/
def snippetParts (item : NewsItem) : List String :=
  if item.snippet == "" then [] else ["Snippet: " ++ item.snippet]

/-- The `URL:` fallback line (app.py:232-233), appended only when the link
is truthy. -/
def linkParts (item : NewsItem) : List String :=
  if item.link == "" then []
  else ["URL: " ++ item.link ++ " (content extraction might have failed or was skipped)"]

/-- The `Extracted Content:`/`URL:` lines (app.py:230-233): full text is
prioritized when truthy and capped at 1500 characters, else the link. -/
def contentParts (item : NewsItem) : List String :=
  match item.full_text_content with
  | some t => if t == "" then linkParts item else ["Extracted Content: " ++ strTake t 1500]
  | none => linkParts item

/-- All prompt lines appended for the item at 0-based index `i`
(app.py:224-233). -/
def itemParts (i : Nat) (item : NewsItem) : List String :=
  [newsItemHeader (i + 1),
   "Title: " ++ item.title,
   "Source: " ++ item.source_name]
  ++ snippetParts item ++ contentParts item

/-- The `for i, item in enumerate(...)` loop (app.py:224-233). -/
def newsItemsParts (i : Nat) : List NewsItem → List String
  | [] => []
  | item :: rest => itemParts i item ++ newsItemsParts (i + 1) rest

/-- The fixed prompt preamble (app.py:203-219), with the topic/company
substitutions of app.py:207-208. -/
def prompt_preamble (topics companies : List String) : List String :=
  ["You are an engaging podcast host. Your task is to create a concise news summary podcast script.",
   "The tone should be informative, professional, yet conversational and easy to listen to.",
   "Summarize the key news from the provided articles based on the following criteria:",
   "Primary Topics of Interest: "
     ++ (if topics.isEmpty then "General Tech & Business News"
         else String.intercalate ", " topics),
   "Companies to Focus On: "
     ++ (if companies.isEmpty then "Not specified, focus on general relevance"
         else String.intercalate ", " companies) ++ "\n",
   "Podcast Structure:",
   "1. Intro: A brief, friendly welcome (e.g., 'Welcome to your AI-powered news brief! Here’s what’s trending...').",
   "2. News Segments: Cover 2-4 distinct news items. For each:",
   "   - Clearly state the headline or main point.",
   "   - Mention the source if available (e.g., 'According to TechCrunch...').",
   "   - Provide a succinct summary (2-4 sentences) explaining the 'what' and 'why it matters'.",
   "   - Highlight a key takeaway or implication.",
   "3. Outro: A brief closing (e.g., 'That’s your news update for today. Stay informed and tune in next time!').",
   "IMPORTANT: The output script must be plain text suitable for Text-to-Speech. Do NOT use markdown (like **, ##, or lists). Use natural language.",
   "Here is the news content (title, source, snippet, and some extracted text if available):\n"]

/-- The full `prompt_parts` list for a non-empty item list (app.py:203-236). -/
def prompt_parts (items : List NewsItem) (topics companies : List String) : List String :=
  prompt_preamble topics companies
  ++ newsItemsParts 0 items
  ++ ["\n--- End of News Items ---",
      "\nNow, generate the podcast script based on these instructions and news items:"]

/-- `full_prompt = "\n".join(prompt_parts)` (app.py:238). -/
def full_prompt (items : List NewsItem) (topics companies : List String) : String :=
  String.intercalate "\n" (prompt_parts items topics companies)

/-- The markdown cleanup of app.py:246. -/
def cleanupScript (s : String) : String :=
  ((s.replace "*- " "").replace "* " "").replace "- " ""

/-- `generate_podcast_script_gemini` (app.py:198-255).  `modelOk` is the
availability of the global `gemini_model`; `gemini` the oracle for
`generate_content` on the assembled prompt. -/
def generate_podcast_script_gemini (modelOk : Bool) (news_items_with_content : List NewsItem)
    (topics companies : List String) (gemini : String → GeminiResult) : String :=
  if !modelOk then "Error: Gemini model not available."
  else if news_items_with_content.isEmpty then
    "I couldn't find enough relevant news for your topics/companies to generate a script after processing."
  else
    match gemini (full_prompt news_items_with_content topics companies) with
    | .ok t => cleanupScript t
    | .badFormat => "Error: Gemini did not return a valid script. Please check the logs and try adjusting the prompt or input articles."
    | .exn => "Error: An exception occurred while generating the podcast script."

/- ### Speech synthesis (`text_to_speech_gcp`, app.py:258-286) -/

/-- `text_to_speech_gcp` (app.py:258-286).  `clientOk` is the availability
of the global `tts_client`; `synthOk` the oracle for the
`synthesize_speech` call plus the file write (false = the exception
handler of app.py:284-286 runs).  Returns the `Option` result of the
Python function paired with the synthesis request issued, if any: `none`
means `synthesize_speech` was never called and no file written. -/
def text_to_speech_gcp (clientOk synthOk : Bool) (text output_filename voice_name : String) :
    Option String × Option (String × String) :=
  if !clientOk then (none, none)
  else if text == "" || containsStr text "Error" || strTrim text == "" then (none, none)
  else if synthOk then (some output_filename, some (text, voice_name))
  else (none, some (text, voice_name))

/- ### The `generate_button` handler (app.py:320-385) -/

/-- The two session-state slots the run writes (app.py:117-120). -/
structure SessionState where
  podcast_script : String
  audio_file_path : String
  deriving DecidableEq

/-- The sidebar inputs read by one run (app.py:294-317). -/
structure RunInputs where
  raw_topics : String
  raw_companies : String
  num_articles_to_fetch : Nat
  num_articles_for_script : Nat
  tts_voice_code : String
  deriving DecidableEq

/-- The configuration and external-world oracles of one run: secrets and
client availability, the clock, and the NewsAPI / per-URL HTML / Gemini /
TTS backends. -/
structure RunEnv where
  newsApiKey : Option String
  geminiOk : Bool
  ttsOk : Bool
  now : Int
  respond : NewsApiRequest → List NewsItem
  fetchHtml : String → Option Forest
  gemini : String → GeminiResult
  synthOk : Bool

/-- What one click of the button produces: the session state left behind,
whether `text_to_speech_gcp` was invoked by the pipeline, and the
synthesis request it issued (if any). -/
structure RunResult where
  state : SessionState
  tts_called : Bool
  synth_request : Option (String × String)
  deriving DecidableEq

/-- `[t.strip() for t in raw.split(',') if t.strip()]` (app.py:324-325). -/
def parseCommaList (raw : String) : List String :=
  ((strSplitChar ',' raw).map strTrim).filter (fun t => t ≠ "")

/-- The news items of one run: step 1 (app.py:339). -/
def run_news_items (inp : RunInputs) (env : RunEnv) : List NewsItem :=
  (fetch_news_newsapi env.newsApiKey (parseCommaList inp.raw_topics)
    (parseCommaList inp.raw_companies) env.now inp.num_articles_to_fetch env.respond).2

/-- Step 2 (app.py:347-359): the top `num_articles_for_script` items, each
enriched with `full_text_content` when `get_article_text` returned truthy
text for its link. -/
def run_processed_items (inp : RunInputs) (env : RunEnv) : List NewsItem :=
  ((run_news_items inp env).take inp.num_articles_for_script).map fun item =>
    let full_text := get_article_text (env.fetchHtml item.link)
    if full_text ≠ "" then { item with full_text_content := some full_text } else item

/-- Step 3 (app.py:368): the script string produced by this run. -/
def run_script (inp : RunInputs) (env : RunEnv) : String :=
  generate_podcast_script_gemini env.geminiOk (run_processed_items inp env)
    (parseCommaList inp.raw_topics) (parseCommaList inp.raw_companies) env.gemini

/-- The `if generate_button:` body (app.py:320-385).  The first two
statements reset both session slots (app.py:321-322); then the input
validations (app.py:328-335) and the four pipeline steps run, each failure
leaving the state as written so far.  `tts_called` records whether
`text_to_speech_gcp` was entered at all (app.py:380). -/
def generate_button_handler (st : SessionState) (inp : RunInputs) (env : RunEnv) :
    RunResult :=
  let st := { st with podcast_script := "", audio_file_path := "" }
  let user_topics := parseCommaList inp.raw_topics
  let user_companies := parseCommaList inp.raw_companies
  if user_topics.isEmpty && user_companies.isEmpty then ⟨st, false, none⟩
  else if strOptFalsy env.newsApiKey then ⟨st, false, none⟩
  else if !env.geminiOk || !env.ttsOk then ⟨st, false, none⟩
  else
    let news_items := run_news_items inp env
    if news_items.isEmpty then ⟨st, false, none⟩
    else
      let script := run_script inp env
      let st := { st with podcast_script := script }
      if containsStr st.podcast_script "Error" || strTrim st.podcast_script == "" then
        ⟨st, false, none⟩
      else
        let tts := text_to_speech_gcp env.ttsOk env.synthOk st.podcast_script
          "generated_podcast_news.mp3" inp.tts_voice_code
        match tts.1 with
        | some p => ⟨{ st with audio_file_path := p }, true, tts.2⟩
        | none => ⟨st, true, tts.2⟩

/- ### Auxiliary definitions used by the statements below -/

/-- The first selector of a priority list that has a match in the document,
with its matched container. -/
def selectFirst (soup : Forest) : List Selector → Option Html
  | [] => none
  | sel :: rest =>
    match selectOneForest sel soup with
    | some el => some el
    | none => selectFirst soup rest

/-- Whether one entry of `prompt_parts` is a news-item header line. -/
def isNewsItemHeaderPart (p : String) : Bool :=
  "\n--- News Item ".data.isPrefixOf p.data

/- Concrete inputs used by counterexamples and witnesses. -/

/-- A recognized container whose paragraph text is two words. -/
def cexArticle : Html :=
  .elem "article" "" [] (.cons (.elem "p" "" [] (.cons (.text "too short") .nil)) .nil)

/-- 51 words of paragraph text. -/
def cexLongText : String := String.intercalate " " (List.replicate 51 "lorem")

/-- A document whose first recognized container (`article`) holds 2 words
while the next one (`main`) holds 51 words. -/
def cexDoc : Forest :=
  .cons cexArticle
    (.cons (.elem "main" "" []
      (.cons (.elem "p" "" [] (.cons (.text cexLongText) .nil)) .nil)) .nil)

/-- A single recognized container holding 51 words of paragraph text. -/
def singleContainerEl : Html :=
  .elem "article" "" [] (.cons (.elem "p" "" [] (.cons (.text cexLongText) .nil)) .nil)

/-- A document consisting of exactly that container. -/
def singleContainerDoc : Forest :=
  .cons singleContainerEl .nil

/-- A news item without extracted full text. -/
def demoItemPlain : NewsItem :=
  { title := "Chips ahead", link := "http://example.com/b", snippet := "",
    source_name := "Wire", published_at := "", full_text_content := none }

/-- A news item carrying extracted full text. -/
def demoItemFull : NewsItem :=
  { title := "AI rising", link := "http://example.com/a", snippet := "A short snippet",
    source_name := "TechDaily", published_at := "", full_text_content := some "Extracted body." }

/-- A two-item list for the prompt-structure witnesses. -/
def demoItems : List NewsItem := [demoItemFull, demoItemPlain]

/-- A session state carrying stale results from a previous run. -/
def staleState : SessionState :=
  { podcast_script := "old script", audio_file_path := "old.mp3" }

/-- Sidebar inputs for the witness run. -/
def demoInputs : RunInputs :=
  { raw_topics := "artificial intelligence", raw_companies := "",
    num_articles_to_fetch := 7, num_articles_for_script := 3,
    tts_voice_code := "en-US-News-K" }

/-- An environment whose Gemini call raises, so the script of the run is the
sentinel `Error:` string. -/
def errEnv : RunEnv :=
  { newsApiKey := some "key", geminiOk := true, ttsOk := true, now := 0,
    respond := fun _ => [demoItemPlain], fetchHtml := fun _ => none,
    gemini := fun _ => .exn, synthOk := true }

/- ### Helper lemmas -/

theorem strTake_length (s : String) (n : Nat) : (strTake s n).length ≤ n := by
  have h : (strTake s n).length = (s.data.take n).length := rfl
  rw [h, List.length_take]
  omega

theorem isPrefixOf_append_self {α : Type} [BEq α] [LawfulBEq α] (l r : List α) :
    l.isPrefixOf (l ++ r) = true := by
  induction l with
  | nil => simp [List.isPrefixOf]
  | cons a as ih => simp [List.isPrefixOf, ih]

theorem header_isHdr (n : Nat) : isNewsItemHeaderPart (newsItemHeader n) = true := by
  unfold isNewsItemHeaderPart newsItemHeader
  rw [String.data_append, String.data_append, List.append_assoc]
  exact isPrefixOf_append_self _ _

theorem not_hdr_head (c : Char) (cs : List Char) (h : ('\n' == c) = false) :
    "\n--- News Item ".data.isPrefixOf (c :: cs) = false := by
  rw [show "\n--- News Item ".data = '\n' :: "--- News Item ".data by decide]
  have h' : ¬('\n' = c) := by simpa using h
  simp [List.isPrefixOf, h']

theorem isHdr_false_of_head (a b : String) (c : Char) (h : a.data.head? = some c)
    (hc : ('\n' == c) = false) : isNewsItemHeaderPart (a ++ b) = false := by
  unfold isNewsItemHeaderPart
  rw [String.data_append]
  cases ha : a.data with
  | nil => rw [ha] at h; simp at h
  | cons x xs =>
    rw [ha] at h
    simp at h
    rw [List.cons_append, h]
    exact not_hdr_head c _ hc

theorem filter_preamble (topics companies : List String) :
    (prompt_preamble topics companies).filter isNewsItemHeaderPart = [] := by
  rw [List.filter_eq_nil_iff]
  intro a ha
  simp only [prompt_preamble, List.mem_cons, List.not_mem_nil, or_false] at ha
  rcases ha with rfl | rfl | rfl | rfl | rfl | rfl | rfl | rfl | rfl | rfl | rfl | rfl | rfl | rfl | rfl
  · decide
  · decide
  · decide
  · simp only [Bool.not_eq_true]
    exact isHdr_false_of_head _ _ 'P' (by decide) (by decide)
  · simp only [Bool.not_eq_true]
    rw [String.append_assoc]
    exact isHdr_false_of_head _ _ 'C' (by decide) (by decide)
  · decide
  · decide
  · decide
  · decide
  · decide
  · decide
  · decide
  · decide
  · decide
  · decide

theorem filter_snippetParts (item : NewsItem) :
    (snippetParts item).filter isNewsItemHeaderPart = [] := by
  unfold snippetParts
  split
  · rfl
  · simp [isHdr_false_of_head "Snippet: " item.snippet 'S' (by decide) (by decide)]

theorem filter_linkParts (item : NewsItem) :
    (linkParts item).filter isNewsItemHeaderPart = [] := by
  unfold linkParts
  split
  · rfl
  · rw [String.append_assoc]
    simp [isHdr_false_of_head "URL: "
      (item.link ++ " (content extraction might have failed or was skipped)") 'U'
      (by decide) (by decide)]

theorem filter_contentParts (item : NewsItem) :
    (contentParts item).filter isNewsItemHeaderPart = [] := by
  rcases hft : item.full_text_content with _ | t
  · simp [contentParts, hft, filter_linkParts]
  · cases hte : (t == "") with
    | true => simp [contentParts, hft, hte, filter_linkParts]
    | false =>
      simp [contentParts, hft, hte,
        isHdr_false_of_head "Extracted Content: " (strTake t 1500) 'E' (by decide) (by decide)]

theorem filter_itemParts (i : Nat) (item : NewsItem) :
    (itemParts i item).filter isNewsItemHeaderPart = [newsItemHeader (i + 1)] := by
  have hT : isNewsItemHeaderPart ("Title: " ++ item.title) = false :=
    isHdr_false_of_head _ _ 'T' (by decide) (by decide)
  have hS : isNewsItemHeaderPart ("Source: " ++ item.source_name) = false :=
    isHdr_false_of_head _ _ 'S' (by decide) (by decide)
  simp [itemParts, List.filter_append, filter_snippetParts, filter_contentParts,
        List.filter_cons, header_isHdr, hT, hS]

theorem filter_newsItemsParts (items : List NewsItem) :
    ∀ i, (newsItemsParts i items).filter isNewsItemHeaderPart
      = (List.range items.length).map (fun j => newsItemHeader (i + j + 1)) := by
  induction items with
  | nil => intro i; simp [newsItemsParts]
  | cons x xs ih =>
    intro i
    rw [List.length_cons, List.range_succ_eq_map, List.map_cons]
    simp only [newsItemsParts, List.filter_append, filter_itemParts, ih (i + 1)]
    rw [List.singleton_append, List.map_map]
    congr 1
    refine List.map_congr_left ?_
    intro j hj
    show newsItemHeader (i + 1 + j + 1) = newsItemHeader (i + (j + 1) + 1)
    congr 1
    omega

theorem newsItemsParts_decomp :
    ∀ (items : List NewsItem) (i j : Nat) (hj : j < items.length),
      ∃ l r, newsItemsParts i items
        = l ++ itemParts (i + j) (items.get ⟨j, hj⟩) ++ r := by
  intro items
  induction items with
  | nil => intro i j hj; exact absurd hj (by simp)
  | cons x xs ih =>
    intro i j hj
    cases j with
    | zero =>
      refine ⟨[], newsItemsParts (i + 1) xs, ?_⟩
      simp [newsItemsParts]
    | succ j' =>
      have hj' : j' < xs.length := Nat.lt_of_succ_lt_succ (by simpa using hj)
      obtain ⟨l, r, hlr⟩ := ih (i + 1) j' hj'
      refine ⟨itemParts i x ++ l, r, ?_⟩
      have harith : i + 1 + j' = i + (j' + 1) := by omega
      rw [harith] at hlr
      simp [newsItemsParts, hlr, List.append_assoc]

theorem selectLoop_eq_selectFirst (soup : Forest) (sels : List Selector) :
    selectLoop soup sels
      = match selectFirst soup sels with
        | some el => joinParas (elParas el)
        | none => "" := by
  induction sels with
  | nil => rfl
  | cons sel rest ih =>
    unfold selectLoop selectFirst
    cases h : selectOneForest sel soup with
    | some el => simp [h]
    | none => simp [h, ih]

/- ### The claims -/

/-- C3: for every URL on which the fetch or the HTML parse fails (modelled
as `none`), and likewise for a 0-byte body that parses to an empty
document, `get_article_text` returns the empty string; totality of the
Lean function is the no-exception guarantee, the Streamlit warning is the
only other effect of that branch (app.py:193-195). -/
theorem c3_failure_yields_empty_string :
    get_article_text none = "" ∧ get_article_text (some Forest.nil) = "" :=
  ⟨rfl, by decide⟩

/-- C4: whatever the fetch produced and whichever selector or fallback
applied, the extracted text is truncated to at most 4000 characters
(app.py:192). -/
theorem c4_extraction_is_bounded (fetched : Option Forest) :
    (get_article_text fetched).length ≤ 4000 := by
  cases fetched with
  | none => simp [get_article_text]
  | some soup => exact strTake_length _ _

set_option maxRecDepth 80000 in
/-- C2 counterexample: the code does not apply any minimum word threshold.
On `cexDoc` the first recognized container (`article`) holds only two
words; the claim's continuation rule (spec-modelled as
`get_article_text_spec`) would move on to the 51-word `main` container,
but `get_article_text` returns the two-word text. -/
theorem c2_counterexample :
    get_article_text (some cexDoc) = "too short"
    ∧ wordCount (get_article_text (some cexDoc)) < 50
    ∧ get_article_text_spec (some cexDoc) = cexLongText
    ∧ get_article_text (some cexDoc) ≠ get_article_text_spec (some cexDoc) := by
  refine ⟨by decide, by decide, by decide, by decide⟩

/-- C2 (amended): extraction tries the selectors in fixed priority order
and uses the first matching container's concatenated paragraph text
regardless of any word count, truncated to the cap; it falls back to all
document paragraphs exactly when no selector matches or the matched
container's concatenation is empty.  The claim's concrete instance (a
single recognized container with at least 50 words) is the first conjunct
with nonempty text. -/
theorem c2_first_match_wins (soup : Forest) :
    (∀ el, selectFirst soup main_content_selectors = some el →
        joinParas (elParas el) ≠ "" →
        get_article_text (some soup) = strTake (joinParas (elParas el)) 4000)
    ∧ (∀ el, selectFirst soup main_content_selectors = some el →
        joinParas (elParas el) = "" →
        get_article_text (some soup) = strTake (joinParas (findPsForest soup)) 4000)
    ∧ (selectFirst soup main_content_selectors = none →
        get_article_text (some soup) = strTake (joinParas (findPsForest soup)) 4000) := by
  refine ⟨?_, ?_, ?_⟩
  · intro el h hne
    simp only [get_article_text]
    rw [selectLoop_eq_selectFirst, h]
    simp [hne]
  · intro el h he
    simp only [get_article_text]
    rw [selectLoop_eq_selectFirst, h]
    simp [he]
  · intro h
    simp only [get_article_text]
    rw [selectLoop_eq_selectFirst, h]
    simp

set_option maxRecDepth 80000 in
/-- C2 witness: on `cexDoc` the first match (`article`, two words, below
any 50-word threshold) decides the result; on `singleContainerDoc` the
single recognized container holds 51 words and its text is the result. -/
theorem c2_first_match_wins_witness :
    (selectFirst cexDoc main_content_selectors = some cexArticle
      ∧ joinParas (elParas cexArticle) ≠ ""
      ∧ get_article_text (some cexDoc) = strTake (joinParas (elParas cexArticle)) 4000)
    ∧ (selectFirst singleContainerDoc main_content_selectors = some singleContainerEl
      ∧ 50 ≤ wordCount (joinParas (elParas singleContainerEl))
      ∧ get_article_text (some singleContainerDoc)
          = strTake (joinParas (elParas singleContainerEl)) 4000) :=
  ⟨⟨by decide, by decide,
    (c2_first_match_wins cexDoc).1 cexArticle (by decide) (by decide)⟩,
   ⟨by decide, by decide,
    (c2_first_match_wins singleContainerDoc).1 singleContainerEl (by decide) (by decide)⟩⟩

/-- C5 counterexample: for an empty item list no prompt is assembled at
all — the function returns a fixed user-facing message (app.py:221-222),
and that message does not contain the substring "no specific news". -/
theorem c5_counterexample :
    generate_podcast_script_gemini true [] ["artificial intelligence"] ["OpenAI"]
        (fun _ => GeminiResult.ok "script") =
      "I couldn't find enough relevant news for your topics/companies to generate a script after processing."
    ∧ containsStr
        (generate_podcast_script_gemini true [] ["artificial intelligence"] ["OpenAI"]
          (fun _ => GeminiResult.ok "script")) "no specific news" = false :=
  ⟨rfl, by decide⟩

/-- C5 (amended): when the news-item list is empty, script composition
does not fail: it returns the fixed generic no-relevant-news message and
never consults the model (the result is independent of the Gemini
oracle), instead of sending a prompt with an empty news section. -/
theorem c5_empty_items_generic_message (topics companies : List String)
    (g g' : String → GeminiResult) :
    generate_podcast_script_gemini true [] topics companies g =
      "I couldn't find enough relevant news for your topics/companies to generate a script after processing."
    ∧ generate_podcast_script_gemini true [] topics companies g =
      generate_podcast_script_gemini true [] topics companies g' :=
  ⟨rfl, rfl⟩

/-- C9: the TTS refusal predicate is a bare substring test (app.py:262):
any input containing "Error" — also a legitimate script that merely
mentions the word — makes `text_to_speech_gcp` return `None` with no
synthesis request and no file, indistinguishable from its other failure
returns. -/
theorem c9_tts_refuses_any_error_mention
    (clientOk synthOk : Bool) (text output_filename voice_name : String)
    (h : containsStr text "Error" = true) :
    text_to_speech_gcp clientOk synthOk text output_filename voice_name = (none, none) := by
  unfold text_to_speech_gcp
  cases clientOk with
  | false => simp
  | true => simp [h]

/-- C9 witness: an ordinary script mentioning the word "Error" is
refused. -/
theorem c9_witness :
    containsStr "Welcome back. Today we look at Error handling in production systems." "Error" = true
    ∧ text_to_speech_gcp true true
        "Welcome back. Today we look at Error handling in production systems."
        "podcast_audio.mp3" "en-US-News-K" = (none, none) :=
  ⟨by decide, c9_tts_refuses_any_error_mention true true _ _ _ (by decide)⟩

/-- C1: if the script of a run contains "Error" or is empty/whitespace-only,
the handler short-circuits before TTS (app.py:371-372): `text_to_speech_gcp`
is not entered and no synthesis request exists for that run; and the TTS
function itself refuses such input (app.py:262-264), returning `None`
without a synthesis request. -/
theorem c1_sentinel_short_circuits_tts :
    (∀ (st : SessionState) (inp : RunInputs) (env : RunEnv),
        containsStr (run_script inp env) "Error" = true
          ∨ strTrim (run_script inp env) = "" →
        (generate_button_handler st inp env).tts_called = false
          ∧ (generate_button_handler st inp env).synth_request = none)
    ∧ (∀ (clientOk synthOk : Bool) (text output_filename voice_name : String),
        containsStr text "Error" = true ∨ strTrim text = "" →
        text_to_speech_gcp clientOk synthOk text output_filename voice_name
          = (none, none)) := by
  constructor
  · intro st inp env h
    have hb : (containsStr (run_script inp env) "Error"
        || (strTrim (run_script inp env) == "")) = true := by
      rcases h with h | h
      · simp [h]
      · simp [h]
    unfold generate_button_handler
    dsimp only
    split
    · exact ⟨rfl, rfl⟩
    · split
      · exact ⟨rfl, rfl⟩
      · split
        · exact ⟨rfl, rfl⟩
        · split
          · exact ⟨rfl, rfl⟩
          · exact ⟨rfl, rfl⟩
  · intro clientOk synthOk text output_filename voice_name h
    unfold text_to_speech_gcp
    cases clientOk with
    | false => simp
    | true =>
      rcases h with h | h
      · simp [h]
      · simp [h]

/-- C1 witness: a run whose Gemini call raises produces the sentinel
script, and the handler issues no synthesis request; the TTS function
refuses the sentinel directly as well. -/
theorem c1_witness :
    (containsStr (run_script demoInputs errEnv) "Error" = true
      ∨ strTrim (run_script demoInputs errEnv) = "")
    ∧ (generate_button_handler staleState demoInputs errEnv).tts_called = false
    ∧ (generate_button_handler staleState demoInputs errEnv).synth_request = none
    ∧ text_to_speech_gcp true true "Error: Gemini model not available."
        "generated_podcast_news.mp3" "en-US-News-K" = (none, none) :=
  ⟨Or.inl (by decide),
   (c1_sentinel_short_circuits_tts.1 staleState demoInputs errEnv (Or.inl (by decide))).1,
   (c1_sentinel_short_circuits_tts.1 staleState demoInputs errEnv (Or.inl (by decide))).2,
   c1_sentinel_short_circuits_tts.2 true true _ _ _ (Or.inl (by decide))⟩

/-- C8: the first two statements of the handler reset both session slots
(app.py:321-322), so the whole run — including every failure branch — is
independent of whatever script or audio path a previous run left behind. -/
theorem c8_run_never_sees_stale_state (st : SessionState) (inp : RunInputs) (env : RunEnv) :
    generate_button_handler st inp env
      = generate_button_handler { podcast_script := "", audio_file_path := "" } inp env := by
  cases st
  rfl

/-- C6: for a non-empty item list of length N, the assembled prompt parts
contain exactly the headers "News Item 1" .. "News Item N" in input-list
order (the filtered sublist of header lines is exactly that sequence),
and each header is immediately followed by that item's title line and
source line. -/
theorem c6_prompt_has_n_headers_in_order (items : List NewsItem)
    (topics companies : List String) (hne : items ≠ []) :
    (prompt_parts items topics companies).filter isNewsItemHeaderPart
      = (List.range items.length).map (fun j => newsItemHeader (j + 1))
    ∧ ∀ j (hj : j < items.length), ∃ l r,
        prompt_parts items topics companies
          = l ++ [newsItemHeader (j + 1),
                  "Title: " ++ (items.get ⟨j, hj⟩).title,
                  "Source: " ++ (items.get ⟨j, hj⟩).source_name] ++ r := by
  constructor
  · unfold prompt_parts
    rw [List.filter_append, List.filter_append, filter_preamble, filter_newsItemsParts]
    have htail : (["\n--- End of News Items ---",
        "\nNow, generate the podcast script based on these instructions and news items:"].filter
          isNewsItemHeaderPart) = [] := by decide
    rw [htail]
    simp
  · intro j hj
    obtain ⟨l, r, h⟩ := newsItemsParts_decomp items 0 j hj
    have hz : (0 : Nat) + j = j := Nat.zero_add j
    rw [hz] at h
    refine ⟨prompt_preamble topics companies ++ l,
      (snippetParts (items.get ⟨j, hj⟩) ++ contentParts (items.get ⟨j, hj⟩) ++ r)
        ++ ["\n--- End of News Items ---",
            "\nNow, generate the podcast script based on these instructions and news items:"], ?_⟩
    unfold prompt_parts
    rw [h]
    simp [itemParts, List.append_assoc]

/-- C6 witness: the two-item demo list yields exactly headers 1 and 2, in
order, each followed by its title and source. -/
theorem c6_witness :
    (prompt_parts demoItems ["quantum computing"] ["OpenAI"]).filter isNewsItemHeaderPart
      = (List.range demoItems.length).map (fun j => newsItemHeader (j + 1))
    ∧ ∀ j (hj : j < demoItems.length), ∃ l r,
        prompt_parts demoItems ["quantum computing"] ["OpenAI"]
          = l ++ [newsItemHeader (j + 1),
                  "Title: " ++ (demoItems.get ⟨j, hj⟩).title,
                  "Source: " ++ (demoItems.get ⟨j, hj⟩).source_name] ++ r :=
  c6_prompt_has_n_headers_in_order demoItems ["quantum computing"] ["OpenAI"] (by decide)

/-- C7: with a configured key, the query string is the OR-join of the
topics in parentheses AND-joined with the OR-join of the companies in
parentheses, one group omitted when its list is empty, and the request's
from-timestamp is 24 hours (86400 s) before the current UTC time; when
both lists are empty no request is issued and the result list is empty
(the Streamlit warning of app.py:136 is the only other effect). -/
theorem c7_query_shape_and_window (k : String) (topics companies : List String)
    (now : Int) (n : Nat) (respond : NewsApiRequest → List NewsItem)
    (hk : k ≠ "") :
    (topics ≠ [] → companies ≠ [] →
      (fetch_news_newsapi (some k) topics companies now n respond).1 =
        some { q := ("(" ++ String.intercalate " OR " topics ++ ")") ++ " AND "
                      ++ ("(" ++ String.intercalate " OR " companies ++ ")"),
               apiKey := k, fromTimestamp := now - 86400,
               sortBy := "relevancy", language := "en", pageSize := n })
    ∧ (topics ≠ [] → companies = [] →
      (fetch_news_newsapi (some k) topics companies now n respond).1 =
        some { q := "(" ++ String.intercalate " OR " topics ++ ")",
               apiKey := k, fromTimestamp := now - 86400,
               sortBy := "relevancy", language := "en", pageSize := n })
    ∧ (topics = [] → companies ≠ [] →
      (fetch_news_newsapi (some k) topics companies now n respond).1 =
        some { q := "(" ++ String.intercalate " OR " companies ++ ")",
               apiKey := k, fromTimestamp := now - 86400,
               sortBy := "relevancy", language := "en", pageSize := n })
    ∧ (topics = [] → companies = [] →
      fetch_news_newsapi (some k) topics companies now n respond = (none, [])) := by
  have hkb : strOptFalsy (some k) = false := by simp [strOptFalsy, hk]
  have hpair : ∀ a b : String, String.intercalate " AND " [a, b] = a ++ " AND " ++ b :=
    fun a b => rfl
  have hsingle : ∀ a : String, String.intercalate " AND " [a] = a := fun a => rfl
  refine ⟨?_, ?_, ?_, ?_⟩
  · intro ht hc
    have h1 : topics.isEmpty = false := by simp [ht]
    have h2 : companies.isEmpty = false := by simp [hc]
    simp [fetch_news_newsapi, hkb, h1, h2, hpair]
  · intro ht hc
    have h1 : topics.isEmpty = false := by simp [ht]
    simp [fetch_news_newsapi, hkb, h1, hc, hsingle]
  · intro ht hc
    have h2 : companies.isEmpty = false := by simp [hc]
    simp [fetch_news_newsapi, hkb, ht, h2, hsingle]
  · intro ht hc
    simp [fetch_news_newsapi, hkb, ht, hc]

/-- C7 witness: both groups present for two topics and one company, and
the empty-lists run makes no request and returns no items. -/
theorem c7_witness :
    (fetch_news_newsapi (some "key") ["ai", "chips"] ["OpenAI"] 1000000 5
        (fun _ => [])).1 =
      some { q := ("(" ++ String.intercalate " OR " ["ai", "chips"] ++ ")") ++ " AND "
                    ++ ("(" ++ String.intercalate " OR " ["OpenAI"] ++ ")"),
             apiKey := "key", fromTimestamp := 1000000 - 86400,
             sortBy := "relevancy", language := "en", pageSize := 5 }
    ∧ fetch_news_newsapi (some "key") [] [] 1000000 5 (fun _ => []) = (none, []) :=
  ⟨(c7_query_shape_and_window "key" ["ai", "chips"] ["OpenAI"] 1000000 5 (fun _ => [])
      (by decide)).1 (by decide) (by decide),
   ((c7_query_shape_and_window "key" [] [] 1000000 5 (fun _ => [])
      (by decide)).2.2.2) rfl rfl⟩

/-- C10: an item carrying truthy extracted text contributes exactly the
line "Extracted Content: " followed by the first at-most-1500 characters
of `full_text_content` (a tighter cap than extraction's 4000), and an item
without extracted text but with a link contributes the URL line instead
(app.py:230-233). -/
theorem c10_prompt_embeds_capped_text_or_url (i : Nat) (item : NewsItem) :
    (∀ t, item.full_text_content = some t → t ≠ "" →
      ("Extracted Content: " ++ strTake t 1500) ∈ itemParts i item
        ∧ (strTake t 1500).length ≤ 1500)
    ∧ (item.full_text_content = none → item.link ≠ "" →
      ("URL: " ++ item.link ++ " (content extraction might have failed or was skipped)")
        ∈ itemParts i item) := by
  constructor
  · intro t ht htne
    refine ⟨?_, strTake_length t 1500⟩
    simp [itemParts, contentParts, ht, htne]
  · intro ht hl
    simp [itemParts, contentParts, linkParts, ht, hl]

/-- C10 witness: the full-text demo item carries the capped extracted
content line; the plain item carries the URL line. -/
theorem c10_witness :
    ("Extracted Content: " ++ strTake "Extracted body." 1500) ∈ itemParts 0 demoItemFull
    ∧ (strTake "Extracted body." 1500).length ≤ 1500
    ∧ ("URL: " ++ demoItemPlain.link
        ++ " (content extraction might have failed or was skipped)") ∈ itemParts 1 demoItemPlain :=
  ⟨((c10_prompt_embeds_capped_text_or_url 0 demoItemFull).1 "Extracted body." rfl
      (by decide)).1,
   ((c10_prompt_embeds_capped_text_or_url 0 demoItemFull).1 "Extracted body." rfl
      (by decide)).2,
   (c10_prompt_embeds_capped_text_or_url 1 demoItemPlain).2 rfl (by decide)⟩
